import Mathlib

/-!
Shallow embedding of the Adafruit TCS34725 color-sensor driver
(`src/Adafruit_TCS34725.cpp`).

The driver's hardware interaction is modelled as explicit state passing
plus a transaction trace: every register write, register read and blocking
delay appends an `Event`.  The device environment (`Env`) supplies the
bytes that the stubbed transport would return (identity register and the
four 16-bit channel registers).  Machine integers are `Nat` with explicit
`% 2^w` where C truncation or wraparound matters.  The two
color-temperature conversions that can divide by zero are embedded as
`Option`-returning functions: `none` marks an input on which the C code
performs an (undefined) division by zero.  Floating-point computations
(`calculateLux`, `calculateColorTemperature`) are idealised over `ℚ` with
the exact decimal values of the source literals.
-/

namespace TCS34725

/-- Registers touched by the driver, as symbolic names.
Modelled from the spec: the register-address constants live in the header
`Adafruit_TCS34725.h`, which is not under `src/`; the spec's register
table (ENABLE, ATIME, CONTROL, ID, CDATAL/RDATAL/GDATAL/BDATAL) names the
registers symbolically, so they are embedded as an inductive type. -/
inductive Reg where
  | ENABLE
  | ATIME
  | CONTROL
  | ID
  | CDATAL
  | RDATAL
  | GDATAL
  | BDATAL
  deriving DecidableEq

/-- Modelled from the spec: the ENABLE-register bit constants are defined
in the missing header; the spec fixes power-on at bit 0 and ADC-enable at
bit 1. -/
def TCS34725_ENABLE_PON : Nat := 0x01

/-- Modelled from the spec: ADC-enable is bit 1 of ENABLE. -/
def TCS34725_ENABLE_AEN : Nat := 0x02

/-- The six integration-time settings of the sensor
(enum `tcs34725IntegrationTime_t` in the driver). -/
inductive tcs34725IntegrationTime where
  | t2_4ms
  | t24ms
  | t50ms
  | t101ms
  | t154ms
  | t700ms
  deriving DecidableEq

/-- The four gain settings of the sensor (enum `tcs34725Gain_t`). -/
inductive tcs34725Gain where
  | g1x
  | g4x
  | g16x
  | g60x
  deriving DecidableEq

/-- Modelled from the spec: the numeric enumerator values of
`tcs34725IntegrationTime_t` are defined in the missing header.  The spec
fixes the device relation `integration period = (256 - code) * 2.4 ms`
(used verbatim by the DN40 conversion) and places 154 ms and 700 ms in the
digital-saturation regime `(256 - code) > 63`; the canonical codes below
(0xFF, 0xF6, 0xEB, 0xD5, 0xC0, 0x00) realise exactly that mapping. -/
def itCode : tcs34725IntegrationTime → Nat
  | .t2_4ms => 0xFF
  | .t24ms => 0xF6
  | .t50ms => 0xEB
  | .t101ms => 0xD5
  | .t154ms => 0xC0
  | .t700ms => 0x00

/-- Modelled from the spec: the numeric enumerator values of
`tcs34725Gain_t` (the CONTROL-register gain codes) are defined in the
missing header; the canonical codes are 0,1,2,3 for 1x,4x,16x,60x. -/
def gainCode : tcs34725Gain → Nat
  | .g1x => 0x00
  | .g4x => 0x01
  | .g16x => 0x02
  | .g60x => 0x03

/-- The integration-time → settling-delay mapping from the `switch`
statements in `Adafruit_TCS34725::enable` and
`Adafruit_TCS34725::getRawData` (delays in milliseconds). -/
def itDelay : tcs34725IntegrationTime → Nat
  | .t2_4ms => 3
  | .t24ms => 24
  | .t50ms => 50
  | .t101ms => 101
  | .t154ms => 154
  | .t700ms => 700

/-- Spec-side copy of the integration-time → delay mapping, written from
the spec's table "2.4ms→3ms, 24ms→24ms, 50ms→50ms, 101ms→101ms,
154ms→154ms, 700ms→700ms", for refinement comparison with the code's
`itDelay`. -/
def specEnableDelay : tcs34725IntegrationTime → Nat
  | .t2_4ms => 3
  | .t24ms => 24
  | .t50ms => 50
  | .t101ms => 101
  | .t154ms => 154
  | .t700ms => 700

/-- One bus-visible action of the driver: an 8-bit register write with the
written value, an 8-bit register read, a 16-bit (two byte) register read,
or a blocking delay in milliseconds. -/
inductive Event where
  | write8 (reg : Reg) (value : Nat)
  | read8 (reg : Reg)
  | read16 (reg : Reg)
  | delay (ms : Nat)
  deriving DecidableEq

/-- The instance state of `Adafruit_TCS34725`: the member variables
`_tcs34725Initialised`, `_tcs34725IntegrationTime`, `_tcs34725Gain`,
plus the device's ENABLE register contents (`enableReg`), which the
driver writes in `enable`/`disable` and reads back in `disable`. -/
structure DriverState where
  initialised : Bool
  integrationTime : tcs34725IntegrationTime
  gain : tcs34725Gain
  enableReg : Nat
  deriving DecidableEq

/-- The stubbed device/transport environment: the byte the ID register
read returns and the values held in the four 16-bit channel registers. -/
structure Env where
  idByte : Nat
  cVal : Nat
  rVal : Nat
  gVal : Nat
  bVal : Nat
  deriving DecidableEq

/-- `Adafruit_TCS34725::Adafruit_TCS34725(it, gain)`: stores the requested
settings, marks the instance uninitialised; the device ENABLE register
boots at 0 (power-down). -/
def construct (it : tcs34725IntegrationTime) (g : tcs34725Gain) : DriverState :=
  { initialised := false, integrationTime := it, gain := g, enableReg := 0 }

/-- `Adafruit_TCS34725::enable`: writes PON to ENABLE, delays 3 ms, writes
PON|AEN to ENABLE, then delays per the integration-time `switch`
(`itDelay`).  Returns the new state and the transaction trace. -/
def enable (s : DriverState) : DriverState × List Event :=
  ({ s with enableReg := TCS34725_ENABLE_PON ||| TCS34725_ENABLE_AEN },
    [Event.write8 Reg.ENABLE TCS34725_ENABLE_PON, Event.delay 3,
      Event.write8 Reg.ENABLE (TCS34725_ENABLE_PON ||| TCS34725_ENABLE_AEN),
      Event.delay (itDelay s.integrationTime)])

/-- `Adafruit_TCS34725::disable`: reads the ENABLE register (the driver's
`read8` returns the uint8 device value, here `enableReg % 256`) and writes
it back with PON and AEN cleared (`reg & ~(PON|AEN)`, i.e. `reg & 0xFC`). -/
def disable (s : DriverState) : DriverState × List Event :=
  ({ s with enableReg := Nat.land (s.enableReg % 256) 0xFC },
    [Event.read8 Reg.ENABLE,
      Event.write8 Reg.ENABLE (Nat.land (s.enableReg % 256) 0xFC)])

/-- The unguarded body of `Adafruit_TCS34725::setIntegrationTime`: write
the code to ATIME, then update the in-memory placeholder.  Split out
because `begin` invokes `setIntegrationTime` only after it has already set
`_tcs34725Initialised = true`, so inside `begin` the initialisation guard
is dead; embedding the core separately sidesteps the mutual recursion that
the C++ code resolves dynamically. -/
def setIntegrationTimeCore (it : tcs34725IntegrationTime) (s : DriverState) :
    DriverState × List Event :=
  ({ s with integrationTime := it }, [Event.write8 Reg.ATIME (itCode it)])

/-- The unguarded body of `Adafruit_TCS34725::setGain`: write the gain
code to CONTROL, then update the in-memory placeholder. -/
def setGainCore (g : tcs34725Gain) (s : DriverState) : DriverState × List Event :=
  ({ s with gain := g }, [Event.write8 Reg.CONTROL (gainCode g)])

/-- `Adafruit_TCS34725::begin`: reads the ID register (a uint8, hence
`idByte % 256`); if the byte is neither 0x44 nor 0x10 returns `false`
with the state untouched.  Otherwise sets `_tcs34725Initialised = true`,
calls `setIntegrationTime(_tcs34725IntegrationTime)`,
`setGain(_tcs34725Gain)` (their guards are dead at this point, so the
cores are used) and `enable()`, and returns `true`. -/
def begin (s : DriverState) (env : Env) : Bool × DriverState × List Event :=
  if env.idByte % 256 ≠ 0x44 ∧ env.idByte % 256 ≠ 0x10 then
    (false, s, [Event.read8 Reg.ID])
  else
    let s1 : DriverState := { s with initialised := true }
    let p2 := setIntegrationTimeCore s1.integrationTime s1
    let p3 := setGainCore p2.1.gain p2.1
    let p4 := enable p3.1
    (true, p4.1, Event.read8 Reg.ID :: (p2.2 ++ p3.2 ++ p4.2))

/-- The `if (!_tcs34725Initialised) begin();` prologue shared by the
public methods: runs `begin` (discarding its Boolean result, exactly as
the C++ does) when the instance is uninitialised. -/
def ensureBegin (s : DriverState) (env : Env) : DriverState × List Event :=
  if s.initialised then (s, []) else ((begin s env).2.1, (begin s env).2.2)

/-- `Adafruit_TCS34725::setIntegrationTime`: initialisation guard, ATIME
write, in-memory update. -/
def setIntegrationTime (it : tcs34725IntegrationTime) (s : DriverState) (env : Env) :
    DriverState × List Event :=
  let p0 := ensureBegin s env
  let p := setIntegrationTimeCore it p0.1
  (p.1, p0.2 ++ p.2)

/-- `Adafruit_TCS34725::setGain`: initialisation guard, CONTROL write,
in-memory update. -/
def setGain (g : tcs34725Gain) (s : DriverState) (env : Env) :
    DriverState × List Event :=
  let p0 := ensureBegin s env
  let p := setGainCore g p0.1
  (p.1, p0.2 ++ p.2)

/-- `Adafruit_TCS34725::getRawData`: initialisation guard, then reads the
four 16-bit channel registers in the order CDATAL, RDATAL, GDATAL, BDATAL
(each read yields the 16-bit register value, `% 2^16`), then delays per
the integration-time `switch`.  The result tuple is `(r, g, b, c)`, the
order of the C++ output parameters. -/
def getRawData (s : DriverState) (env : Env) :
    (Nat × Nat × Nat × Nat) × DriverState × List Event :=
  let p0 := ensureBegin s env
  ((env.rVal % 65536, env.gVal % 65536, env.bVal % 65536, env.cVal % 65536), p0.1,
    p0.2 ++ [Event.read16 Reg.CDATAL, Event.read16 Reg.RDATAL, Event.read16 Reg.GDATAL,
      Event.read16 Reg.BDATAL, Event.delay (itDelay p0.1.integrationTime)])

/-- `Adafruit_TCS34725::getRawDataOneShot`: initialisation guard, then
`enable()`, `getRawData(...)` (which repeats its own guard), `disable()`. -/
def getRawDataOneShot (s : DriverState) (env : Env) :
    (Nat × Nat × Nat × Nat) × DriverState × List Event :=
  let p0 := ensureBegin s env
  let p1 := enable p0.1
  let p2 := getRawData p1.1 env
  let p3 := disable p2.2.1
  (p2.1, p3.1, p0.2 ++ p1.2 ++ p2.2.2 ++ p3.2)

/-- The saturation threshold computed at the top of
`Adafruit_TCS34725::calculateColorTemperature_dn40` (a uint16): 65535 in
the digital regime `(256 - code) > 63`; otherwise `1024 * (256 - code)`
followed by `sat -= sat/4`.  All values fit in 16 bits. -/
def satLevel (it : tcs34725IntegrationTime) : Nat :=
  let sat0 := if 256 - itCode it > 63 then 65535 else 1024 * (256 - itCode it)
  if 256 - itCode it ≤ 63 then sat0 - sat0 / 4 else sat0

/-- Spec-side copy of the saturation-threshold description ("sat = 65535
when (256 - integrationTimeCode) > 63, and otherwise
sat = 1024 * (256 - integrationTimeCode) reduced by one quarter
(sat -= sat/4)"), for refinement comparison with the code's `satLevel`. -/
def satSpec (it : tcs34725IntegrationTime) : Nat :=
  if 256 - itCode it > 63 then 65535
  else 1024 * (256 - itCode it) - 1024 * (256 - itCode it) / 4

/-- The gain → integer multiplier `switch` inside
`calculateColorTemperature_dn40` (`gain_int`); the `default` case of the
C++ `switch` coincides with the 1x case. -/
def dn40GainInt : tcs34725Gain → Nat
  | .g4x => 4
  | .g16x => 16
  | .g60x => 60
  | .g1x => 1

/-- Modelled from the spec: the calibrated-unit conversion path (spec
§4.4, `readUnitOneShot` / per-channel sensitivity scaling) is not present
under `src/`; per the spec it uses a gain multiplier table
`{1, 4, 16, 40}` in which the 60x gain setting maps to 40, not 60. -/
def unitGainMultiplier : tcs34725Gain → Nat
  | .g1x => 1
  | .g4x => 4
  | .g16x => 16
  | .g60x => 40

/-- `Adafruit_TCS34725::calculateColorTemperature_dn40`, integer part
(uint16/uint32 arithmetic; inputs are 16-bit channel values).
After the saturation check, `ir = (r+g+b > c) ? (r+g+b-c)/2 : 0` is
computed in `int` and truncated to uint16; `r2/g2/b2 = channel - ir` are
uint16 subtractions that wrap modulo 2^16; the returned
`cct = (3810*b2)/r2 + 1391` is computed in uint32 and truncated to uint16.
`none` marks the input class on which the C code divides by zero
(`r2 == 0`), which is undefined behaviour.  The source also computes
floating-point locals `cpl`, `der`, `max_lux`, `gl`, `lux` (the only use
of `gain_int`, see `dn40GainInt`); they are dead with respect to the
returned value and are not part of this embedding. -/
def calculateColorTemperature_dn40 (it : tcs34725IntegrationTime)
    (r g b c : Nat) : Option Nat :=
  if c ≥ satLevel it then some 0
  else
    let ir := if r + g + b > c then (r + g + b - c) / 2 % 65536 else 0
    let r2 := (r + 65536 - ir) % 65536
    let b2 := (b + 65536 - ir) % 65536
    if r2 = 0 then none
    else some ((3810 * b2 / r2 + 1391) % 65536)

/-- The IR estimate computed inside `calculateColorTemperature_dn40`
(`ir = (r + g + b > c) ? (r + g + b - c) / 2 : 0`, truncated to uint16),
named separately so theorems can speak about it. -/
def dn40Ir (r g b c : Nat) : Nat :=
  if r + g + b > c then (r + g + b - c) / 2 % 65536 else 0

/-- The wrapped uint16 subtraction `channel - ir` performed by
`calculateColorTemperature_dn40` on r, g and b (for 16-bit inputs). -/
def dn40Sub (x ir : Nat) : Nat := (x + 65536 - ir) % 65536

/-- `Adafruit_TCS34725::calculateColorTemperature` (McCamy), idealised
over `ℚ` with the exact decimal values of the binary32 literals of the
source.  `none` marks the inputs on which the C code divides by zero:
`X + Y + Z = 0` (chromaticity denominators) or `0.1858 - yc = 0`
(McCamy denominator).  The final uint16 cast of the source is not
modelled; only the divide-by-zero structure and the formula are. -/
def calculateColorTemperature (r g b : Nat) : Option ℚ :=
  let X : ℚ := (-14282 / 100000 : ℚ) * r + (154924 / 100000 : ℚ) * g +
    (-95641 / 100000 : ℚ) * b
  let Y : ℚ := (-32466 / 100000 : ℚ) * r + (157837 / 100000 : ℚ) * g +
    (-73191 / 100000 : ℚ) * b
  let Z : ℚ := (-68202 / 100000 : ℚ) * r + (77073 / 100000 : ℚ) * g +
    (56332 / 100000 : ℚ) * b
  if X + Y + Z = 0 then none
  else
    let xc := X / (X + Y + Z)
    let yc := Y / (X + Y + Z)
    if (1858 / 10000 : ℚ) - yc = 0 then none
    else
      let n := (xc - 3320 / 10000) / ((1858 / 10000 : ℚ) - yc)
      some (449 * n ^ 3 + 3525 * n ^ 2 + (68233 / 10 : ℚ) * n + 552033 / 100)

/-- The illuminance combination computed by
`Adafruit_TCS34725::calculateLux`, idealised over `ℚ` with the exact
decimal values of the binary32 literals
(`-0.32466*r + 1.57837*g - 0.73191*b`). -/
def luxIlluminance (r g b : Nat) : ℚ :=
  (-32466 / 100000 : ℚ) * r + (157837 / 100000 : ℚ) * g + (-73191 / 100000 : ℚ) * b

/-- Truncation toward zero, the rounding a C float-to-integer cast
performs on the in-range part of its domain. -/
def truncToInt (q : ℚ) : ℤ :=
  if 0 ≤ q then ⌊q⌋ else ⌈q⌉

/-- `Adafruit_TCS34725::calculateLux` idealised over `ℚ` for the float
arithmetic: the source computes the float combination and returns
`(uint16_t)illuminance`.  A C float-to-unsigned conversion is defined
exactly when the value truncated toward zero is representable in the
target type, so the embedding returns `some` of the truncation on
`[0, 65536)` and `none` (undefined behaviour) otherwise. -/
def calculateLux (r g b : Nat) : Option Nat :=
  if 0 ≤ truncToInt (luxIlluminance r g b) ∧ truncToInt (luxIlluminance r g b) < 65536
  then some (truncToInt (luxIlluminance r g b)).toNat
  else none

/-- The instance of claim C5's scenario: constructed with integration
time 101 ms and gain 16x (hence uninitialised, ENABLE register 0). -/
def c5State : DriverState := construct .t101ms .g16x

/-- The transport stub of claim C5's scenario: identity byte 0x44 and
arbitrary distinct 16-bit channel register values. -/
def c5Env : Env :=
  { idByte := 0x44, cVal := 1111, rVal := 2222, gVal := 3333, bVal := 4444 }

/-- The transaction sequence that claim C5 asserts `getRawDataOneShot`
produces: identity read, ATIME write, CONTROL write, ENABLE write PON,
delay 3, ENABLE write PON|AEN, delay 101, four channel reads
(clear, red, green, blue), ENABLE write clearing PON|AEN. -/
def c5ClaimedTrace : List Event :=
  [Event.read8 Reg.ID,
    Event.write8 Reg.ATIME (itCode .t101ms),
    Event.write8 Reg.CONTROL (gainCode .g16x),
    Event.write8 Reg.ENABLE TCS34725_ENABLE_PON,
    Event.delay 3,
    Event.write8 Reg.ENABLE (TCS34725_ENABLE_PON ||| TCS34725_ENABLE_AEN),
    Event.delay 101,
    Event.read16 Reg.CDATAL, Event.read16 Reg.RDATAL,
    Event.read16 Reg.GDATAL, Event.read16 Reg.BDATAL,
    Event.write8 Reg.ENABLE 0]

/-- The transaction sequence the embedded code actually produces in claim
C5's scenario: `begin` runs `enable` once already, `getRawDataOneShot`
runs `enable` a second time, `getRawData` appends a trailing
integration-time delay, and `disable` reads ENABLE before clearing it. -/
def c5ActualTrace : List Event :=
  [Event.read8 Reg.ID,
    Event.write8 Reg.ATIME (itCode .t101ms),
    Event.write8 Reg.CONTROL (gainCode .g16x),
    Event.write8 Reg.ENABLE TCS34725_ENABLE_PON,
    Event.delay 3,
    Event.write8 Reg.ENABLE (TCS34725_ENABLE_PON ||| TCS34725_ENABLE_AEN),
    Event.delay 101,
    Event.write8 Reg.ENABLE TCS34725_ENABLE_PON,
    Event.delay 3,
    Event.write8 Reg.ENABLE (TCS34725_ENABLE_PON ||| TCS34725_ENABLE_AEN),
    Event.delay 101,
    Event.read16 Reg.CDATAL, Event.read16 Reg.RDATAL,
    Event.read16 Reg.GDATAL, Event.read16 Reg.BDATAL,
    Event.delay 101,
    Event.read8 Reg.ENABLE,
    Event.write8 Reg.ENABLE 0]

/-- C2: for every configured integration-time setting, `enable()` performs
exactly the sequence: ENABLE write of the power-on bit alone, delay 3 ms,
ENABLE write of power-on plus ADC-enable, then a delay given by the exact
mapping 2.4ms→3, 24ms→24, 50ms→50, 101ms→101, 154ms→154, 700ms→700
(`specEnableDelay`, written from the spec's table). -/
theorem c2_enable_sequence :
    (∀ s : DriverState,
      (enable s).2 =
        [Event.write8 Reg.ENABLE TCS34725_ENABLE_PON, Event.delay 3,
          Event.write8 Reg.ENABLE (TCS34725_ENABLE_PON ||| TCS34725_ENABLE_AEN),
          Event.delay (specEnableDelay s.integrationTime)]) ∧
    specEnableDelay .t2_4ms = 3 ∧ specEnableDelay .t24ms = 24 ∧
    specEnableDelay .t50ms = 50 ∧ specEnableDelay .t101ms = 101 ∧
    specEnableDelay .t154ms = 154 ∧ specEnableDelay .t700ms = 700 := by
  refine ⟨fun s => ?_, by decide⟩
  rcases s with ⟨ini, it, g, er⟩
  cases it <;> rfl

/-- C4: the two conversion paths use distinct gain-multiplier tables: the
calibrated-unit path (spec §4.4, modelled from the spec) maps 60x to 40,
while the DN40 path's `gain_int` switch maps 1x,4x,16x,60x to 1,4,16,60. -/
theorem c4_gain_tables :
    unitGainMultiplier .g60x = 40 ∧
    dn40GainInt .g1x = 1 ∧ dn40GainInt .g4x = 4 ∧
    dn40GainInt .g16x = 16 ∧ dn40GainInt .g60x = 60 ∧
    unitGainMultiplier .g60x ≠ dn40GainInt .g60x := by
  decide

/-- C3 counterexample: the claimed equivalence "returns 0 iff c ≥ sat" is
false.  At integration time 700 ms (sat = 65535) the input
r=1000, g=0, b=16836, c=17836 is below saturation, yet the computed CCT is
(3810*16836)/1000 + 1391 = 65536, which the uint16 return truncates to 0. -/
theorem c3_dn40_saturation_counterexample :
    calculateColorTemperature_dn40 .t700ms 1000 0 16836 17836 = some 0 ∧
    ¬ (17836 ≥ satLevel .t700ms) := by
  decide

/-- C3 (amended): `calculateColorTemperature_dn40` returns 0 whenever
`c ≥ sat`, where sat = 65535 when (256 - integrationTimeCode) > 63 and
otherwise sat = 1024 * (256 - integrationTimeCode) reduced by one quarter;
the converse direction fails (for some c < sat the uint16-truncated CCT is
also 0, see the counterexample). -/
theorem c3_dn40_saturation_amended :
    (∀ it : tcs34725IntegrationTime, satLevel it = satSpec it) ∧
    (∀ (it : tcs34725IntegrationTime) (r g b c : Nat),
      satLevel it ≤ c → calculateColorTemperature_dn40 it r g b c = some 0) := by
  refine ⟨fun it => by cases it <;> rfl, fun it r g b c h => ?_⟩
  simp [calculateColorTemperature_dn40, h]

/-- C3 witness: the amended theorem applied at integration time 2.4 ms
(sat = 768) and the saturated input c = 768. -/
theorem c3_dn40_saturation_amended_witness :
    calculateColorTemperature_dn40 .t2_4ms 0 0 0 768 = some 0 :=
  c3_dn40_saturation_amended.2 .t2_4ms 0 0 0 768 (by decide)

/-- C9: the divide-by-zero conditions are unguarded in both
color-temperature paths: `calculateColorTemperature 0 0 0` hits a zero
chromaticity denominator (X+Y+Z = 0) and is undefined (`none`), and
`calculateColorTemperature_dn40` at the unsaturated input
r=g=b=c=100 (700 ms) gets IR-compensated red r2 = 0 and divides by zero
(`none`). -/
theorem c9_divide_by_zero_unguarded :
    calculateColorTemperature 0 0 0 = none ∧
    calculateColorTemperature_dn40 .t700ms 100 100 100 100 = none ∧
    100 < satLevel .t700ms := by
  refine ⟨?_, by decide, by decide⟩
  unfold calculateColorTemperature
  norm_num

/-- C10: in `calculateColorTemperature_dn40` the IR compensation is an
unsigned 16-bit subtraction.  At the unsaturated input r=1, g=200, b=50,
c=0 (700 ms) the IR estimate is 125 > r, so r2 wraps to
1 - 125 + 2^16 = 65412 and the function proceeds with that huge value
(returning 5203, no clamping to zero).  At the unsaturated input r=101,
g=149, b=50, c=100 the IR estimate 100 exceeds b, b2 wraps to 65486,
r2 = 1, and the computed CCT 3810*65486/1 + 1391 = 249503051 is returned
truncated modulo 2^16 as 7499. -/
theorem c10_dn40_wraparound :
    (dn40Ir 1 200 50 0 = 125 ∧ 125 > 1 ∧ dn40Sub 1 125 = 65412 ∧
      calculateColorTemperature_dn40 .t700ms 1 200 50 0 = some 5203 ∧
      0 < satLevel .t700ms) ∧
    (dn40Ir 101 149 50 100 = 100 ∧ 100 > 50 ∧ dn40Sub 50 100 = 65486 ∧
      dn40Sub 101 100 = 1 ∧
      3810 * dn40Sub 50 100 / dn40Sub 101 100 + 1391 = 249503051 ∧
      65536 ≤ 249503051 ∧ 249503051 % 65536 = 7499 ∧
      calculateColorTemperature_dn40 .t700ms 101 149 50 100 = some 7499 ∧
      100 < satLevel .t700ms) := by
  decide

/-- C1: for every identity byte, `begin` succeeds iff the byte is 0x44 or
0x10; on success it marks the instance initialised, applies the stored
integration-time and gain settings and powers the device on (ATIME write,
CONTROL write, PON then PON|AEN ENABLE writes with delays); on failure it
returns false and leaves all instance state unchanged. -/
theorem c1_begin_identity :
    ∀ (s : DriverState) (env : Env),
      ((begin s env).1 = true ↔
        env.idByte % 256 = 0x44 ∨ env.idByte % 256 = 0x10) ∧
      ((begin s env).1 = true →
        (begin s env).2.1 =
          { initialised := true, integrationTime := s.integrationTime,
            gain := s.gain,
            enableReg := TCS34725_ENABLE_PON ||| TCS34725_ENABLE_AEN } ∧
        (begin s env).2.2 =
          [Event.read8 Reg.ID, Event.write8 Reg.ATIME (itCode s.integrationTime),
            Event.write8 Reg.CONTROL (gainCode s.gain),
            Event.write8 Reg.ENABLE TCS34725_ENABLE_PON, Event.delay 3,
            Event.write8 Reg.ENABLE (TCS34725_ENABLE_PON ||| TCS34725_ENABLE_AEN),
            Event.delay (itDelay s.integrationTime)]) ∧
      ((begin s env).1 = false →
        (begin s env).2.1 = s ∧ (begin s env).2.2 = [Event.read8 Reg.ID]) := by
  intro s env
  rcases s with ⟨ini, it, g, er⟩
  by_cases h : env.idByte % 256 ≠ 0x44 ∧ env.idByte % 256 ≠ 0x10
  · rw [begin, if_pos h]
    refine ⟨by simpa using not_or.mpr h, by simp, fun _ => ⟨rfl, rfl⟩⟩
  · rw [begin, if_neg h]
    rw [not_and_or, not_ne_iff, not_ne_iff] at h
    exact ⟨by simpa using h, fun _ => ⟨rfl, rfl⟩, by simp⟩

/-- C1 witness: `c1_begin_identity` applied to an uninitialised instance
and a stub returning identity 0x44. -/
theorem c1_begin_identity_witness :
    (begin (construct .t101ms .g16x) c5Env).1 = true :=
  (c1_begin_identity (construct .t101ms .g16x) c5Env).1.mpr (Or.inl (by decide))

/-- C5 counterexample: in the claimed scenario (instance constructed with
101 ms / 16x, stub identity 0x44), `getRawDataOneShot` does NOT produce
exactly the claimed transaction sequence: `begin` already runs `enable`
once, `getRawDataOneShot` runs `enable` a second time, `getRawData`
appends a trailing delay(101), and `disable` reads ENABLE before the
clearing write. -/
theorem c5_oneshot_trace_counterexample :
    (getRawDataOneShot c5State c5Env).2.2 ≠ c5ClaimedTrace := by
  decide

/-- C5 (amended): in the claimed scenario the call produces exactly the
sequence: identity read, ATIME write, CONTROL write, then the enable
block (ENABLE write PON, delay 3, ENABLE write PON|AEN, delay 101) run
inside `begin`, the same enable block a second time run by
`getRawDataOneShot` itself, the four 16-bit channel reads in order
clear, red, green, blue, a further delay 101, an ENABLE read, and an
ENABLE write clearing PON|AEN; and it returns the four stub-provided
values unchanged. -/
theorem c5_oneshot_trace_amended :
    (getRawDataOneShot c5State c5Env).2.2 = c5ActualTrace ∧
    (getRawDataOneShot c5State c5Env).1 = (2222, 3333, 4444, 1111) := by
  decide

/-- C6: on an initialised instance, `getRawData` reads the four 16-bit
channel registers in the fixed order clear, red, green, blue, then blocks
for the integration-time-derived delay (the spec's mapping,
`specEnableDelay`) before returning the four register values. -/
theorem c6_getRawData_spec :
    ∀ (s : DriverState) (env : Env), s.initialised = true →
      (getRawData s env).1 =
        (env.rVal % 65536, env.gVal % 65536, env.bVal % 65536, env.cVal % 65536) ∧
      (getRawData s env).2.1 = s ∧
      (getRawData s env).2.2 =
        [Event.read16 Reg.CDATAL, Event.read16 Reg.RDATAL, Event.read16 Reg.GDATAL,
          Event.read16 Reg.BDATAL, Event.delay (specEnableDelay s.integrationTime)] := by
  intro s env h
  rcases s with ⟨ini, it, g, er⟩
  cases ini
  · simp at h
  · refine ⟨rfl, rfl, ?_⟩
    cases it <;> rfl

/-- C6 witness: `c6_getRawData_spec` applied to an initialised instance at
101 ms and concrete channel register values. -/
theorem c6_getRawData_spec_witness :
    (getRawData ⟨true, .t101ms, .g16x, 3⟩ c5Env).1 = (2222, 3333, 4444, 1111) :=
  ((c6_getRawData_spec ⟨true, .t101ms, .g16x, 3⟩ c5Env rfl).1).trans (by decide)

/-- C7: on an initialised instance, `setIntegrationTime X` writes the code
of X to the ATIME register and then sets the in-memory integration time to
X (so a subsequent query returns X), and `setGain` does the same with the
CONTROL register and the stored gain; nothing else of the state changes. -/
theorem c7_setters_spec :
    ∀ (it : tcs34725IntegrationTime) (g : tcs34725Gain) (s : DriverState) (env : Env),
      s.initialised = true →
      setIntegrationTime it s env =
        ({ s with integrationTime := it }, [Event.write8 Reg.ATIME (itCode it)]) ∧
      (setIntegrationTime it s env).1.integrationTime = it ∧
      setGain g s env =
        ({ s with gain := g }, [Event.write8 Reg.CONTROL (gainCode g)]) ∧
      (setGain g s env).1.gain = g := by
  intro it g s env h
  rcases s with ⟨ini, it0, g0, er⟩
  cases ini
  · simp at h
  · exact ⟨rfl, rfl, rfl, rfl⟩

/-- C7 witness: `c7_setters_spec` applied to an initialised instance, with
the 50 ms code and 4x gain. -/
theorem c7_setters_spec_witness :
    setIntegrationTime .t50ms ⟨true, .t101ms, .g1x, 3⟩ c5Env =
      (⟨true, .t50ms, .g1x, 3⟩, [Event.write8 Reg.ATIME (itCode .t50ms)]) :=
  (c7_setters_spec .t50ms .g4x ⟨true, .t101ms, .g1x, 3⟩ c5Env rfl).1

/-- Truncation toward zero commutes with doubling up to one unit:
`truncToInt (2*q)` differs from `2 * truncToInt q` by at most 1. -/
theorem truncToInt_two_mul (q : ℚ) :
    (truncToInt (2 * q) - 2 * truncToInt q).natAbs ≤ 1 := by
  unfold truncToInt
  rcases le_or_lt 0 q with h | h
  · rw [if_pos h, if_pos (by linarith)]
    have h1 : 2 * ⌊q⌋ ≤ ⌊2 * q⌋ := by
      apply Int.le_floor.mpr
      push_cast
      linarith [Int.floor_le q]
    have h2 : ⌊2 * q⌋ < 2 * ⌊q⌋ + 2 := by
      apply Int.floor_lt.mpr
      push_cast
      linarith [Int.lt_floor_add_one q]
    omega
  · rw [if_neg (not_le.mpr (by linarith)), if_neg (not_le.mpr h)]
    have h1 : ⌈2 * q⌉ ≤ 2 * ⌈q⌉ := by
      apply Int.ceil_le.mpr
      push_cast
      linarith [Int.le_ceil q]
    have h2 : 2 * ⌈q⌉ - 2 < ⌈2 * q⌉ := by
      apply Int.lt_ceil.mpr
      push_cast
      linarith [Int.ceil_lt_add_one q]
    omega

/-- C8 counterexample: the claim fails at the 16-bit input (10, 0, 0):
the combination is -0.32466*10 = -3.2466, whose integer truncation -3 is
negative, so the source's float-to-uint16 return conversion cannot yield
it (the conversion is undefined there; the embedding returns `none`),
refuting "for every 16-bit input calculateLux returns the combination
truncated to an integer". -/
theorem c8_calculateLux_counterexample :
    calculateLux 10 0 0 = none ∧
    truncToInt (luxIlluminance 10 0 0) = -3 ∧
    luxIlluminance 10 0 0 < 0 := by
  have hI : luxIlluminance 10 0 0 = -16233 / 5000 := by
    unfold luxIlluminance
    norm_num
  have hT : truncToInt (luxIlluminance 10 0 0) = -3 := by
    unfold truncToInt
    rw [hI, if_neg (by norm_num), Int.ceil_eq_iff]
    constructor <;> norm_num
  refine ⟨?_, hT, by rw [hI]; norm_num⟩
  unfold calculateLux
  rw [hT, if_neg (by norm_num)]

/-- C8 (amended): for every input whose truncated combination lies in the
uint16 range, `calculateLux` returns exactly the combination
-0.32466*r + 1.57837*g - 0.73191*b truncated toward zero;
`calculateLux 0 0 0 = 0`; and when the combination is nonnegative and the
doubled combination still truncates below 2^16, doubling all inputs
yields the truncation of twice the combination, agreeing with
`2 * calculateLux r g b` up to one unit of integer truncation.  Outside
the uint16 range the source's float-to-unsigned return conversion is
undefined (see the counterexample). -/
theorem c8_calculateLux_amended :
    (∀ r g b : Nat,
      0 ≤ truncToInt (luxIlluminance r g b) →
      truncToInt (luxIlluminance r g b) < 65536 →
      calculateLux r g b = some (truncToInt (luxIlluminance r g b)).toNat) ∧
    calculateLux 0 0 0 = some 0 ∧
    (∀ r g b : Nat,
      0 ≤ luxIlluminance r g b →
      truncToInt (2 * luxIlluminance r g b) < 65536 →
      calculateLux (2 * r) (2 * g) (2 * b) =
        some (truncToInt (2 * luxIlluminance r g b)).toNat ∧
      calculateLux r g b = some (truncToInt (luxIlluminance r g b)).toNat ∧
      (((truncToInt (2 * luxIlluminance r g b)).toNat : ℤ) -
        2 * ((truncToInt (luxIlluminance r g b)).toNat : ℤ)).natAbs ≤ 1) := by
  refine ⟨fun r g b h0 h1 => ?_, ?_, fun r g b hq h2 => ?_⟩
  · unfold calculateLux
    rw [if_pos ⟨h0, h1⟩]
  · have hI : luxIlluminance 0 0 0 = 0 := by
      unfold luxIlluminance
      norm_num
    have hT : truncToInt (luxIlluminance 0 0 0) = 0 := by
      rw [hI]
      unfold truncToInt
      norm_num
    unfold calculateLux
    rw [hT]
    norm_num
  · have hd : luxIlluminance (2 * r) (2 * g) (2 * b) = 2 * luxIlluminance r g b := by
      unfold luxIlluminance
      push_cast
      ring
    have ht2 : truncToInt (2 * luxIlluminance r g b) = ⌊2 * luxIlluminance r g b⌋ := by
      unfold truncToInt
      rw [if_pos (by linarith)]
    have ht1 : truncToInt (luxIlluminance r g b) = ⌊luxIlluminance r g b⌋ := by
      unfold truncToInt
      rw [if_pos hq]
    have h2nn : 0 ≤ truncToInt (2 * luxIlluminance r g b) := by
      rw [ht2]
      exact Int.floor_nonneg.mpr (by linarith)
    have h1nn : 0 ≤ truncToInt (luxIlluminance r g b) := by
      rw [ht1]
      exact Int.floor_nonneg.mpr hq
    have h1lt : truncToInt (luxIlluminance r g b) < 65536 := by
      have hfl : ⌊2 * luxIlluminance r g b⌋ < 65536 := by
        rw [← ht2]
        exact h2
      rw [ht1]
      exact lt_of_le_of_lt (Int.floor_le_floor (by linarith)) hfl
    refine ⟨?_, ?_, ?_⟩
    · unfold calculateLux
      rw [hd, if_pos ⟨h2nn, h2⟩]
    · unfold calculateLux
      rw [if_pos ⟨h1nn, h1lt⟩]
    · rw [Int.toNat_of_nonneg h2nn, Int.toNat_of_nonneg h1nn]
      exact truncToInt_two_mul (luxIlluminance r g b)

/-- C8 witness: the amended theorem applied at the concrete input
(0, 1, 0), whose combination 1.57837 truncates to 1 inside the uint16
range. -/
theorem c8_calculateLux_amended_witness : calculateLux 0 1 0 = some 1 := by
  have hI : luxIlluminance 0 1 0 = 157837 / 100000 := by
    unfold luxIlluminance
    norm_num
  have hT : truncToInt (luxIlluminance 0 1 0) = 1 := by
    unfold truncToInt
    rw [hI, if_pos (by norm_num), Int.floor_eq_iff]
    constructor <;> norm_num
  have h := c8_calculateLux_amended.1 0 1 0 (by rw [hT]; norm_num) (by rw [hT]; norm_num)
  rw [h, hT]
  rfl

end TCS34725
